import Mathlib

/-!
Shallow embedding of the energy/fuel exercise from the repository
(files src/h_advanced_traits.rs and src/i_extension_traits.rs).

Machine integers are modelled as Nat with explicit wrap-around modulo
2^32 (u32) or 256 (u8) exactly where the source performs arithmetic that
can overflow.  The f32 arithmetic used by NuclearReactor and
InternalCombustion is modelled exactly by dyadic rationals (an unbounded
significand together with a binary exponent) rounded to 24 significant
bits with round-to-nearest, ties-to-even, which is IEEE-754 binary32
behaviour on the positive normal range that all the verified
computations stay inside.
-/

/-- Modulus of u32 arithmetic. -/
def U32 : Nat := 4294967296

/-- Joule wrapper, from src/h_advanced_traits.rs line 12. -/
structure Joule where
  val : Nat
deriving DecidableEq

/-- Calorie wrapper, from src/h_advanced_traits.rs line 14. -/
structure Calorie where
  val : Nat
deriving DecidableEq

/-- From Joule for BTU, lines 18-22: j.0 / 1055. -/
def jouleToBTU (j : Joule) : Nat := j.val / 1055

/-- From BTU for Joule, lines 24-28: Joule(b * 1055); u32 multiply wraps. -/
def btuToJoule (b : Nat) : Joule := Joule.mk (b * 1055 % U32)

/-- From Calorie for BTU, lines 30-34: c.0 / 251. -/
def calorieToBTU (c : Calorie) : Nat := c.val / 251

/-- From BTU for Calorie, lines 36-40: Calorie(b * 251); u32 multiply wraps. -/
def btuToCalorie (b : Nat) : Calorie := Calorie.mk (b * 251 % U32)

/-- Diesel::energy_density, lines 56-62: the BTU value 100 converted into Joule. -/
def diesel_energy_density : Joule := btuToJoule 100

/-- LithiumBattery::energy_density, lines 65-71: the BTU value 200 converted into Calorie. -/
def lithiumBattery_energy_density : Calorie := btuToCalorie 200

/-- Uranium::energy_density, lines 74-80: the BTU value 1000 converted into Joule. -/
def uranium_energy_density : Joule := btuToJoule 1000

/-- The fuel categories of the module: the three base fuels plus the two
type-level composites Mixed and CustomMixed (whose coefficient is a u8
const generic, modelled as a Nat taken modulo 256). -/
inductive Fuel where
  | diesel
  | lithiumBattery
  | uranium
  | mixed (f1 f2 : Fuel)
  | customMixed (c : Nat) (f1 f2 : Fuel)
deriving DecidableEq

/-- The value F::energy_density().into() : BTU for each fuel category F.
Base fuels go through their physical unit exactly as in the source; the
composites are the bodies of the Fuel impls for Mixed (lines 204-213)
and CustomMixed (lines 226-236), with u32 wrap-around made explicit.
For CustomMixed the u8 const C is read modulo 256 and the u32
subtraction 100 - C wraps. -/
def energyDensityBTU : Fuel → Nat
  | .diesel => jouleToBTU diesel_energy_density
  | .lithiumBattery => calorieToBTU lithiumBattery_energy_density
  | .uranium => jouleToBTU uranium_energy_density
  | .mixed f1 f2 => (energyDensityBTU f1 + energyDensityBTU f2) % U32 / 2
  | .customMixed c f1 f2 =>
      (energyDensityBTU f1 * (c % 256) % U32 / 100
        + energyDensityBTU f2 * ((100 + U32 - c % 256) % U32) % U32 / 100) % U32

/-- The raw value of the Output type of fuel F obtained from a BTU value
via .into() (the From impls above): Joule for Diesel and Uranium,
Calorie for LithiumBattery, BTU itself for the composites. -/
def outputOfBTU : Fuel → Nat → Nat
  | .diesel, b => (btuToJoule b).val
  | .uranium, b => (btuToJoule b).val
  | .lithiumBattery, b => (btuToCalorie b).val
  | .mixed _ _, b => b
  | .customMixed _ _ _, b => b

/-- The BTU value of a raw Output value of fuel F (the to_btu helper of
the source tests, i.e. the Into BTU direction). -/
def btuOfOutput : Fuel → Nat → Nat
  | .diesel, v => jouleToBTU (Joule.mk v)
  | .uranium, v => jouleToBTU (Joule.mk v)
  | .lithiumBattery, v => calorieToBTU (Calorie.mk v)
  | .mixed _ _, v => v
  | .customMixed _ _ _, v => v

/-! Exact model of IEEE-754 binary32 (f32) arithmetic on nonnegative
normal-range values.  A value is a dyadic rational m * 2^e. -/

/-- A nonnegative dyadic rational m * 2^e, used to represent f32 values
exactly.  Rounded results carry a significand of at most 24 bits (2^24
itself may appear after a round-up; it is still an exact f32 value). -/
structure F32 where
  m : Nat
  e : Int
deriving DecidableEq

/-- Fuel-bounded bit-length helper. -/
def bitlenAux : Nat → Nat → Nat
  | 0, _ => 0
  | f + 1, n => if n = 0 then 0 else bitlenAux f (n / 2) + 1

/-- Number of bits of n (0 for 0); the fuel 160 covers every number that
appears in the computations below (all are far below 2^160). -/
def bitlen (n : Nat) : Nat := bitlenAux 160 n

/-- Round-to-nearest, ties-to-even: top is the truncated significand,
rem the discarded bits, half the value of the highest discarded bit
position, sticky whether any bits below rem were nonzero. -/
def rne (top rem half : Nat) (sticky : Bool) : Nat :=
  if half < rem then top + 1
  else if rem < half then top
  else if sticky then top + 1
  else if top % 2 = 0 then top else top + 1

/-- Round the exact dyadic value n * 2^e to 24 significant bits
(round-to-nearest, ties-to-even).  Callers pass sticky = true only when
n has more than 24 bits. -/
def roundDy (n : Nat) (e : Int) (sticky : Bool) : F32 :=
  let b := bitlen n
  if b ≤ 24 then F32.mk n e
  else
    let s := b - 24
    F32.mk (rne (n >>> s) (n % 2 ^ s) (2 ^ (s - 1)) sticky) (e + s)

/-- Conversion u32 as f32 (round-to-nearest; exact below 2^24). -/
def natToF32 (n : Nat) : F32 := roundDy n 0 false

/-- f32 multiplication: the exact product rounded to 24 bits. -/
def f32mul (a b : F32) : F32 := roundDy (a.m * b.m) (a.e + b.e) false

/-- f32 division, correctly rounded: the quotient is computed with 64
guard bits and a sticky bit from the remainder.  Since significands are
below 2^25, the scaled quotient always has more than 24 bits, so the
rounding step always fires with full information. -/
def f32div (a b : F32) : F32 :=
  if b.m = 0 then F32.mk 0 0
  else
    let nn := a.m <<< 64
    let q := nn / b.m
    let r := nn % b.m
    let s := bitlen q - 24
    F32.mk (rne (q >>> s) (q % 2 ^ s) (2 ^ (s - 1)) (decide (r ≠ 0))) (a.e - b.e - 64 + s)

/-- The Rust f32 literal 0.99: the f32 nearest to 99/100, obtained here
as the correctly rounded quotient 99.0 / 100.0. -/
def lit099 : F32 := f32div (F32.mk 99 0) (F32.mk 100 0)

/-- The Rust cast expr as u32 on a nonnegative f32: truncation toward
zero, saturating at u32::MAX. -/
def f32toU32 (x : F32) : Nat :=
  let v := match x.e with
    | Int.ofNat k => x.m <<< k
    | Int.negSucc k => x.m >>> (k + 1)
  min v (U32 - 1)

/-- Default method ProvideEnergy::provide_energy_with_efficiency, lines
124-127 of src/h_advanced_traits.rs: n = (e / 100) as u32 with e a u8
(truncating u8 division, no saturation), then (f.amount * n).into()
where f.amount * n is a u32 BTU value converted to the Output type. -/
def provide_energy_with_efficiency (F : Fuel) (amount e : Nat) : Nat :=
  let n := e % 256 / 100
  outputOfBTU F (amount * n % U32)

/-- Default method ProvideEnergy::provide_energy_ideal, lines 132-134:
f.amount.into(). -/
def provide_energy_ideal (F : Fuel) (amount : Nat) : Nat :=
  outputOfBTU F (amount % U32)

/-- NuclearReactor::provide_energy, lines 139-146: density is the fuel
density as BTU wrapped in Joule, result = density.0 as f32 * amount as
f32 * 0.99 computed in f32, then (result as u32).into().  The
NuclearReactor struct has no fields, so the function is pure. -/
def nuclearProvide (F : Fuel) (amount : Nat) : Nat :=
  let density := energyDensityBTU F
  let result := f32toU32 (f32mul (f32mul (natToF32 density) (natToF32 amount)) lit099)
  outputOfBTU F result

/-- The counter update of InternalCombustion::provide_energy, lines
167-171: the stored u8 is decremented by 10 when above 100 and by 1
otherwise, with wrapping u8 subtraction made explicit (the source has
no guard, so at 0 the subtraction wraps past zero). -/
def icNextEff (E : Nat) : Nat :=
  if 100 < E then (E + 256 - 10) % 256 else (E + 256 - 1) % 256

/-- InternalCombustion::{DECAY}::provide_energy, lines 162-177: with
stored efficiency E, the effective f32 factor is 1.0 when E > 100 and
E as f32 / 100.0 otherwise; the output is density.0 as f32 * amount as
f32 * factor truncated to u32 and converted into the Output type, and
the stored counter becomes icNextEff E.  The const generic DECAY is a
parameter of the impl that its body never reads. -/
def icProvide (DECAY : Nat) (F : Fuel) (E amount : Nat) : Nat × Nat :=
  let density := energyDensityBTU F
  let eff := if 100 < E then F32.mk 1 0 else f32div (natToF32 E) (natToF32 100)
  let result := f32toU32 (f32mul (f32mul (natToF32 density) (natToF32 amount)) eff)
  (outputOfBTU F result, icNextEff E)

/-- Run an InternalCombustion instance with const DECAY and stored
efficiency E over a list of calls (each a fuel category and an amount),
returning the list of raw outputs and the final stored efficiency. -/
def icRun (DECAY : Nat) (E : Nat) : List (Fuel × Nat) → List Nat × Nat
  | [] => ([], E)
  | c :: rest =>
      let r := icProvide DECAY c.1 E c.2
      let t := icRun DECAY r.2 rest
      (r.1 :: t.1, t.2)

/-- Marker trait IsRenewable, lines 253-254: implemented for
LithiumBattery only. -/
def IsRenewable (F : Fuel) : Prop := F = Fuel.lithiumBattery

instance (F : Fuel) : Decidable (IsRenewable F) :=
  decidable_of_iff (F = Fuel.lithiumBattery) Iff.rfl

/-- GreenEngine::provide_energy, lines 260-265: the impl block is for
every F : Fuel (the source carries no IsRenewable bound), and returns
(density * f.amount).into() with density the fuel density as BTU. -/
def greenEngineProvide (F : Fuel) (amount : Nat) : Nat :=
  outputOfBTU F (energyDensityBTU F * amount % U32)

/-- Outcome enum from src/i_extension_traits.rs lines 3-8. -/
inductive Outcome where
  | ok
  | somethingWentWrong
  | iDontKnow
deriving DecidableEq

/-- OutcomeCount::ok_count for Vec of Outcome, lines 69-71: count the
elements equal to Outcome::Ok. -/
def ok_count (l : List Outcome) : Nat :=
  (l.filter fun o => o == Outcome.ok).length

/-- OutcomeCount::something_went_wrong_count, lines 75-77. -/
def something_went_wrong_count (l : List Outcome) : Nat :=
  (l.filter fun o => o == Outcome.somethingWentWrong).length

/-- OutcomeCount::i_dont_know_count, lines 72-74. -/
def i_dont_know_count (l : List Outcome) : Nat :=
  (l.filter fun o => o == Outcome.iDontKnow).length


/-! Theorems settling the claims. -/

/-- Helper: the body of InternalCombustion::provide_energy never reads
the DECAY const, so one call is independent of it. -/
theorem icProvide_decay_irrel (D D2 : Nat) (F : Fuel) (E a : Nat) :
    icProvide D F E a = icProvide D2 F E a := rfl

/-- Helper: whole call sequences on InternalCombustion are independent
of the DECAY const. -/
theorem icRun_decay_irrel (D D2 E : Nat) (l : List (Fuel × Nat)) :
    icRun D E l = icRun D2 E l := by
  induction l generalizing E with
  | nil => rfl
  | cons c rest ih =>
      simp only [icRun]
      rw [icProvide_decay_irrel D D2 c.1 E c.2, ih]

/-- Claim C1: the default provide_energy_with_efficiency is claimed to
return floor(density) * amount * (min(e,100) / 100).  The code instead
computes amount * (e / 100) as a BTU value, with no saturation of e at
100 and no density factor: on Diesel with amount 10, e = 200 yields 20
BTU (not the claimed 100 * 10 * 1 = 1000), and e = 100 yields 10 BTU.
This contradicts the trait doc comment, which demands saturation at
100. -/
theorem pewe_no_saturation_no_density :
    btuOfOutput Fuel.diesel (provide_energy_with_efficiency Fuel.diesel 10 200) = 20
    ∧ btuOfOutput Fuel.diesel (provide_energy_with_efficiency Fuel.diesel 10 100) = 10
    ∧ (20 : Nat) ≠ energyDensityBTU Fuel.diesel * 10 * (min 200 100 / 100)
    ∧ (10 : Nat) ≠ energyDensityBTU Fuel.diesel * 10 * (min 100 100 / 100) := by
  decide

/-- Claim C2: the GreenEngine impl in the source carries no IsRenewable
bound, so the unmarked category Diesel does type-check and produces
energy at runtime: 1000 BTU for amount 10.  For the marked category
LithiumBattery the output is density * amount as the claim states. -/
theorem greenEngine_unmarked_provides :
    ¬ IsRenewable Fuel.diesel
    ∧ btuOfOutput Fuel.diesel (greenEngineProvide Fuel.diesel 10) = 1000
    ∧ IsRenewable Fuel.lithiumBattery
    ∧ btuOfOutput Fuel.lithiumBattery (greenEngineProvide Fuel.lithiumBattery 10)
        = energyDensityBTU Fuel.lithiumBattery * 10 := by
  decide

/-- Claim C3: an InternalCombustion instance with any DECAY const and
initial stored efficiency 120 returns, on four consecutive calls on
Diesel containers of amount 10, the outputs 1000, 1000, 1000, 990 in
common units. -/
theorem ic_trace_from_120 (D : Nat) :
    (icRun D 120 [(Fuel.diesel, 10), (Fuel.diesel, 10), (Fuel.diesel, 10),
        (Fuel.diesel, 10)]).1.map (btuOfOutput Fuel.diesel) = [1000, 1000, 1000, 990] := by
  rw [icRun_decay_irrel D 0]
  decide

/-- Claim C4: one call to InternalCombustion::provide_energy moves the
stored u8 efficiency from E to E - 10 when E > 100 and to E - 1
otherwise (in wrapping u8 arithmetic, stated here modulo 256 over the
integers), independent of DECAY; and two instances with different DECAY
consts produce identical outputs and counter states on identical call
sequences. -/
theorem ic_decrement_rule_decay_inert (D D2 : Nat) (F : Fuel) (E a : Nat)
    (hE : E < 256) (calls : List (Fuel × Nat)) :
    ((icProvide D F E a).2 : Int) = ((E : Int) - (if 100 < E then 10 else 1)) % 256
    ∧ icRun D E calls = icRun D2 E calls := by
  refine ⟨?_, icRun_decay_irrel D D2 E calls⟩
  have h2 : (icProvide D F E a).2 = icNextEff E := rfl
  rw [h2]
  unfold icNextEff
  split <;> omega

/-- Witness for C4 at DECAY consts 3 and 7, Diesel, stored efficiency
120, amount 10, and a one-call sequence. -/
theorem ic_decrement_rule_decay_inert_witness :
    ((icProvide 3 Fuel.diesel 120 10).2 : Int)
      = ((120 : Int) - (if 100 < (120 : Nat) then 10 else 1)) % 256
    ∧ icRun 3 120 [(Fuel.diesel, 10)] = icRun 7 120 [(Fuel.diesel, 10)] :=
  ic_decrement_rule_decay_inert 3 7 Fuel.diesel 120 10 (by decide) [(Fuel.diesel, 10)]

/-- Claim C5, counterexample: the nuclear provider does not return
floor(density_common * amount * 0.99) for every input.  On Uranium with
amount 4113 that floor is 4071870, but the u32 multiplication inside
the BTU-to-Joule conversion of the result wraps modulo 2^32, so the
call returns the Joule raw value 855554, i.e. 810 common units. -/
theorem nuclear_not_exact_floor :
    btuOfOutput Fuel.uranium (nuclearProvide Fuel.uranium 4113) = 810
    ∧ nuclearProvide Fuel.uranium 4113 = 855554
    ∧ energyDensityBTU Fuel.uranium * 4113 * 99 / 100 = 4071870
    ∧ (810 : Nat) ≠ 4071870
    ∧ (855554 : Nat) ≠ 4071870 := by
  decide

/-- Claim C5, amended: NuclearReactor has no fields, so provide_energy
is a pure function of the fuel category and amount; on Uranium with
amount 10 it returns 9900 common units, and any number of repeated
calls with equal containers each return 9900. -/
theorem nuclear_pure_and_9900 (n : Nat) :
    (List.replicate n (nuclearProvide Fuel.uranium 10)).map (btuOfOutput Fuel.uranium)
      = List.replicate n 9900 := by
  have h : btuOfOutput Fuel.uranium (nuclearProvide Fuel.uranium 10) = 9900 := by decide
  rw [List.map_replicate, h]

/-- Claim C6: converting each base fuel density to the common unit BTU
gives the fixed constants 100 (Diesel), 200 (LithiumBattery, scaled
through Calorie), and 1000 (Uranium). -/
theorem base_density_common :
    jouleToBTU diesel_energy_density = 100
    ∧ calorieToBTU lithiumBattery_energy_density = 200
    ∧ jouleToBTU uranium_energy_density = 1000 := by
  decide

/-- Claim C7: unit conversion is a fixed truncating integer ratio per
physical unit (1055 for Joule, 251 for Calorie; the multiplications are
u32 and stated below in their wrap-free range), and round-trips are
lossy: Joule 1054 converts to BTU 0 and back to Joule 0. -/
theorem unit_conversion_fixed_ratio (j c b1 b2 : Nat)
    (h1 : b1 * 1055 < U32) (h2 : b2 * 251 < U32) :
    jouleToBTU (Joule.mk j) = j / 1055
    ∧ (btuToJoule b1).val = b1 * 1055
    ∧ calorieToBTU (Calorie.mk c) = c / 251
    ∧ (btuToCalorie b2).val = b2 * 251
    ∧ (btuToJoule (jouleToBTU (Joule.mk 1054))).val ≠ 1054 := by
  refine ⟨rfl, ?_, rfl, ?_, by decide⟩
  · exact Nat.mod_eq_of_lt h1
  · exact Nat.mod_eq_of_lt h2

/-- Witness for C7 at raw values 2110 (Joule), 502 (Calorie) and BTU
value 7 in both directions. -/
theorem unit_conversion_fixed_ratio_witness :
    jouleToBTU (Joule.mk 2110) = 2110 / 1055
    ∧ (btuToJoule 7).val = 7 * 1055
    ∧ calorieToBTU (Calorie.mk 502) = 502 / 251
    ∧ (btuToCalorie 7).val = 7 * 251
    ∧ (btuToJoule (jouleToBTU (Joule.mk 1054))).val ≠ 1054 :=
  unit_conversion_fixed_ratio 2110 502 7 7 (by decide) (by decide)

/-- Claim C8: CustomMixed with coefficient 50 over Diesel and
LithiumBattery has the same common-unit density as Mixed of the same
two categories, namely 150; the weighted form is the sum of two
independently truncated halves and the unweighted form is the truncated
average. -/
theorem customMixed_50_matches_mixed :
    energyDensityBTU (Fuel.customMixed 50 Fuel.diesel Fuel.lithiumBattery)
      = energyDensityBTU (Fuel.mixed Fuel.diesel Fuel.lithiumBattery)
    ∧ energyDensityBTU (Fuel.customMixed 50 Fuel.diesel Fuel.lithiumBattery)
      = energyDensityBTU Fuel.diesel * 50 / 100
        + energyDensityBTU Fuel.lithiumBattery * 50 / 100
    ∧ energyDensityBTU (Fuel.mixed Fuel.diesel Fuel.lithiumBattery)
      = (energyDensityBTU Fuel.diesel + energyDensityBTU Fuel.lithiumBattery) / 2
    ∧ energyDensityBTU (Fuel.mixed Fuel.diesel Fuel.lithiumBattery) = 150 := by
  decide

/-- Claim C9: the counter decrement is unguarded: at stored efficiency
0 the call takes the minus-one branch (0 is not above 100) and the u8
subtraction wraps past zero to 255 instead of clamping or saturating,
as one full provide_energy call on Diesel also shows. -/
theorem ic_counter_unguarded_underflow :
    ¬ 100 < (0 : Nat)
    ∧ icNextEff 0 = 255
    ∧ icNextEff 0 ≠ 0
    ∧ (icProvide 3 Fuel.diesel 0 10).2 = 255 := by
  decide

/-- Claim C10: for every list of Outcome values the three counters
partition it: ok_count plus something_went_wrong_count plus
i_dont_know_count equals the length of the list. -/
theorem outcome_counts_partition (l : List Outcome) :
    ok_count l + something_went_wrong_count l + i_dont_know_count l = l.length := by
  induction l with
  | nil => rfl
  | cons h t ih =>
      cases h
      · show ok_count t + 1 + something_went_wrong_count t + i_dont_know_count t
          = t.length + 1
        omega
      · show ok_count t + (something_went_wrong_count t + 1) + i_dont_know_count t
          = t.length + 1
        omega
      · show ok_count t + something_went_wrong_count t + (i_dont_know_count t + 1)
          = t.length + 1
        omega
